import Mathlib

/-!
Shallow embedding of the health-check aggregation core of the repository
(app/routers/health.py together with app/config.py), and proofs of the
specified properties.

The probes perform external I/O (connecting to postgres / redis).  The
embedding makes the behaviour of the external world an explicit input: a
probe run is parametrised by which step of the try-block fails (if any) and
by the elapsed wall-clock time the run consumed, and the aggregator is
parametrised by the behaviour of each launched task (either it runs the
probe body, or the coroutine itself raises, which is the case
asyncio.gather with return_exceptions=True hands back as an Exception
value).  Everything the Python code computes from those inputs (statuses,
error strings, durations, the checks mapping, the resource actions
performed) is modelled as pure functions translated branch by branch from
the source.
-/

namespace HealthCheck

/-- Individual service check result: the ServiceCheck pydantic model of
health.py.  `duration_ms` is a rational standing for the Python float;
`error` defaults to none exactly as in the model. -/
structure ServiceCheck where
  status : String
  duration_ms : ℚ
  error : Option String := none
deriving DecidableEq

/-- Outcome of the external world during one probe body
(check_database / check_redis).  The try-block is:
connect under asyncio.wait_for, then a verification operation
(conn.execute of SELECT 1, resp. redis.ping), then close.
Exactly one of these five cases happens:
the whole block succeeds; wait_for raises asyncio.TimeoutError; the
connect raises some other exception (no connection was established);
the verification raises after a successful connect; or the close raises
after connect and verification succeeded. -/
inductive ProbeOutcome where
  | ok
  | connectTimeout
  | connectFail (msg : String)
  | verifyFail (msg : String)
  | closeFail (msg : String)
deriving DecidableEq

/-- Resource actions a probe run completes on its connection. -/
inductive Action where
  | openConn
  | closeConn
deriving DecidableEq

/-- A probe run: the ServiceCheck it returns plus the list of completed
resource actions, in order.  `openConn` is recorded when the connect
succeeds, `closeConn` when the close call completes. -/
structure ProbeRun where
  result : ServiceCheck
  actions : List Action
deriving DecidableEq

/-- check_database of health.py.  Branches of the try/except translated
one to one; `elapsed_ms` is the measured (time.time() - start_time) * 1000
of the branch that runs.  A raised verification or close error is caught
by the generic except-clause, which formats it with the
"Database connection failed: " prefix; the timeout clause formats the
configured timeout value.  No branch re-raises: every outcome returns a
ServiceCheck. -/
def check_database (database_url : String) (timeout : ℚ) (elapsed_ms : ℚ) :
    ProbeOutcome → ProbeRun
  | .ok =>
      { result := { status := "healthy", duration_ms := elapsed_ms },
        actions := [.openConn, .closeConn] }
  | .connectTimeout =>
      { result := { status := "unhealthy", duration_ms := elapsed_ms,
                    error := some ("Database connection timeout after " ++
                                   toString timeout ++ "s") },
        actions := [] }
  | .connectFail msg =>
      { result := { status := "unhealthy", duration_ms := elapsed_ms,
                    error := some ("Database connection failed: " ++ msg) },
        actions := [] }
  | .verifyFail msg =>
      { result := { status := "unhealthy", duration_ms := elapsed_ms,
                    error := some ("Database connection failed: " ++ msg) },
        actions := [.openConn] }
  | .closeFail msg =>
      { result := { status := "unhealthy", duration_ms := elapsed_ms,
                    error := some ("Database connection failed: " ++ msg) },
        actions := [.openConn] }

/-- check_redis of health.py: identical control flow to check_database,
with aioredis.from_url / ping / close and the "Redis ..." messages. -/
def check_redis (redis_url : String) (timeout : ℚ) (elapsed_ms : ℚ) :
    ProbeOutcome → ProbeRun
  | .ok =>
      { result := { status := "healthy", duration_ms := elapsed_ms },
        actions := [.openConn, .closeConn] }
  | .connectTimeout =>
      { result := { status := "unhealthy", duration_ms := elapsed_ms,
                    error := some ("Redis connection timeout after " ++
                                   toString timeout ++ "s") },
        actions := [] }
  | .connectFail msg =>
      { result := { status := "unhealthy", duration_ms := elapsed_ms,
                    error := some ("Redis connection failed: " ++ msg) },
        actions := [] }
  | .verifyFail msg =>
      { result := { status := "unhealthy", duration_ms := elapsed_ms,
                    error := some ("Redis connection failed: " ++ msg) },
        actions := [.openConn] }
  | .closeFail msg =>
      { result := { status := "unhealthy", duration_ms := elapsed_ms,
                    error := some ("Redis connection failed: " ++ msg) },
        actions := [.openConn] }

/-- How one gathered task behaves: either the probe coroutine runs its
own body (with the given external outcome and measured elapsed time), or
the coroutine itself raises outside the probe's error handling, after
having consumed `elapsed_ms` of wall-clock time; gather with
return_exceptions=True then yields the exception as a value. -/
inductive TaskBehavior where
  | runs (outcome : ProbeOutcome) (elapsed_ms : ℚ)
  | crashes (msg : String) (elapsed_ms : ℚ)
deriving DecidableEq

/-- The loop body of perform_health_checks over the gather results: a
value is stored as is; an Exception value is replaced by the synthesized
unhealthy ServiceCheck with duration_ms 0 and the "Unexpected error: "
message.  The time the crashed task actually consumed is discarded. -/
def runTask (probe : ℚ → ProbeOutcome → ProbeRun) : TaskBehavior → ServiceCheck
  | .runs outcome elapsed_ms => (probe elapsed_ms outcome).result
  | .crashes msg _ =>
      { status := "unhealthy", duration_ms := 0,
        error := some ("Unexpected error: " ++ msg) }

/-- The fields of Settings (app/config.py) that the health router reads.
Both connection strings are Optional with default None; the timeout is a
single float applying to every dependency. -/
structure Settings where
  database_url : Option String
  redis_url : Option String
  health_check_timeout : ℚ
deriving DecidableEq

/-- Python truthiness of an Optional[str], as tested by
"if settings.database_url:" — None and the empty string are falsy. -/
def truthy : Option String → Bool
  | none => false
  | some s => !(s == "")

/-- Behaviour of the external world for one aggregator call: one
TaskBehavior per dependency kind. -/
structure Env where
  db : TaskBehavior
  redis : TaskBehavior
deriving DecidableEq

/-- perform_health_checks of health.py: a task per truthy-configured
dependency, database first, then redis; the gather results are folded
into the checks mapping by runTask.  The mapping is represented as an
association list in insertion order. -/
def perform_health_checks (settings : Settings) (env : Env) :
    List (String × ServiceCheck) :=
  (if truthy settings.database_url then
    [("database",
      runTask (check_database (settings.database_url.getD "")
                settings.health_check_timeout) env.db)]
   else []) ++
  (if truthy settings.redis_url then
    [("redis",
      runTask (check_redis (settings.redis_url.getD "")
                settings.health_check_timeout) env.redis)]
   else [])

/-- Access of checks[name] on the produced mapping. -/
def lookupCheck (name : String) : List (String × ServiceCheck) → Option ServiceCheck
  | [] => none
  | (n, c) :: rest => if n = name then some c else lookupCheck name rest

/-- The overall-status computation of the health_check endpoint:
start from "healthy"; if the mapping is non-empty and any entry has
status "unhealthy", the overall status is "unhealthy". -/
def health_check_overall (checks : List (String × ServiceCheck)) : String :=
  if checks.isEmpty then "healthy"
  else if checks.any (fun c => c.2.status == "unhealthy") then "unhealthy"
  else "healthy"

/-- critical_services of the readiness_check endpoint. -/
def critical_services : List String := ["database"]

/-- The is_ready loop of the readiness_check endpoint: scan the entries
in order and break to False at the first critical-named unhealthy one. -/
def readiness_is_ready : List (String × ServiceCheck) → Bool
  | [] => true
  | (service_name, check) :: rest =>
      if critical_services.contains service_name && check.status == "unhealthy"
      then false
      else readiness_is_ready rest

/-- Elapsed times handed to a probe body are wall-clock measurements,
hence nonnegative; no constraint is needed on a crashed task since the
aggregator discards its elapsed time. -/
def TaskBehavior.elapsed_nonneg : TaskBehavior → Prop
  | .runs _ elapsed_ms => 0 ≤ elapsed_ms
  | .crashes _ _ => True

/-- Claim C1: for every checks mapping the health endpoint's overall
status is "healthy" when the mapping is empty, and "unhealthy" if and only
if the mapping is non-empty and at least one entry has status "unhealthy"
(so Healthy entries can never mask an Unhealthy one). -/
theorem health_overall_classification (checks : List (String × ServiceCheck)) :
    health_check_overall [] = "healthy" ∧
    (health_check_overall checks = "unhealthy" ↔
      checks ≠ [] ∧ ∃ p ∈ checks, p.2.status = "unhealthy") := by
  refine ⟨rfl, ?_⟩
  unfold health_check_overall
  rcases checks with _ | ⟨q, rest⟩
  · simp
  · have hne : q :: rest ≠ [] := by simp
    simp only [List.isEmpty_cons, Bool.false_eq_true, if_false, hne, ne_eq,
      not_false_eq_true, true_and]
    split
    case isTrue h =>
      simp only [true_iff]
      rcases List.any_eq_true.mp h with ⟨p, hp, hps⟩
      exact ⟨p, hp, by simpa using hps⟩
    case isFalse h =>
      constructor
      · intro hcontra
        exact absurd hcontra (by decide)
      · rintro ⟨p, hp, hps⟩
        exact absurd (List.any_eq_true.mpr ⟨p, hp, by simp [hps]⟩) h

/-- Claim C2: readiness is false exactly when some entry whose name is in
the critical set (which is exactly the singleton "database") has status
"unhealthy"; an unhealthy entry for a non-critical dependency such as
"redis" alone leaves the service ready. -/
theorem readiness_classification (checks : List (String × ServiceCheck)) :
    critical_services = ["database"] ∧
    (readiness_is_ready checks = false ↔
      ∃ p ∈ checks, p.1 ∈ critical_services ∧ p.2.status = "unhealthy") ∧
    readiness_is_ready
      [("redis", ServiceCheck.mk "unhealthy" 120 (some "Connection refused"))]
      = true := by
  refine ⟨rfl, ?_, by decide⟩
  induction checks with
  | nil => simp [readiness_is_ready]
  | cons q rest ih =>
    rcases q with ⟨service_name, check⟩
    simp only [readiness_is_ready]
    split
    case isTrue h =>
      rcases Bool.and_eq_true_iff.mp h with ⟨hmem, hst⟩
      simp only [true_iff]
      exact ⟨(service_name, check), List.mem_cons_self _ _,
        List.elem_iff.mp hmem, by simpa using hst⟩
    case isFalse h =>
      rw [ih]
      constructor
      · rintro ⟨p, hp, hcrit, hst⟩
        exact ⟨p, List.mem_cons_of_mem _ hp, hcrit, hst⟩
      · rintro ⟨p, hp, hcrit, hst⟩
        rcases List.mem_cons.mp hp with heq | hmem
        · refine absurd ?_ h
          subst heq
          exact Bool.and_eq_true_iff.mpr ⟨List.elem_iff.mpr hcrit, by simpa using hst⟩
        · exact ⟨p, hmem, hcrit, hst⟩

/-- Claim C3 as stated is false on the code: with database_url set to the
empty string, the truthiness test of perform_health_checks skips the
database probe, so database_url is set (not None) yet the produced mapping
has no "database" entry. -/
theorem configured_entry_counterexample :
    (Settings.mk (some "") none 5).database_url ≠ none ∧
    lookupCheck "database"
      (perform_health_checks (Settings.mk (some "") none 5)
        (Env.mk (.runs .ok 1) (.runs .ok 1))) = none :=
  ⟨by simp, rfl⟩

/-- Claim C3, amended: the mapping produced by perform_health_checks has
exactly one "database" entry when database_url is set to a non-empty
string and none otherwise, one "redis" entry when redis_url is set to a
non-empty string and none otherwise, and no other entries; an
unconfigured dependency is never probed. -/
theorem perform_health_checks_entries (settings : Settings) (env : Env) :
    (perform_health_checks settings env).map Prod.fst =
      (if truthy settings.database_url then ["database"] else []) ++
      (if truthy settings.redis_url then ["redis"] else []) ∧
    (lookupCheck "database" (perform_health_checks settings env)).isSome
      = truthy settings.database_url ∧
    (lookupCheck "redis" (perform_health_checks settings env)).isSome
      = truthy settings.redis_url := by
  unfold perform_health_checks
  by_cases h1 : truthy settings.database_url <;>
    by_cases h2 : truthy settings.redis_url <;>
      simp [h1, h2, lookupCheck]

/-- The ServiceCheck a database task contributes satisfies the data
invariant whenever its measured elapsed time is nonnegative. -/
theorem runTask_database_invariant (url : String) (t : ℚ) (b : TaskBehavior)
    (hb : b.elapsed_nonneg) :
    ((runTask (check_database url t) b).error ≠ none ↔
      (runTask (check_database url t) b).status = "unhealthy") ∧
    0 ≤ (runTask (check_database url t) b).duration_ms := by
  cases b with
  | runs outcome elapsed_ms =>
    cases outcome <;>
      simp [runTask, check_database, TaskBehavior.elapsed_nonneg] at hb ⊢ <;>
        exact hb
  | crashes msg elapsed_ms => simp [runTask]

/-- The ServiceCheck a redis task contributes satisfies the data
invariant whenever its measured elapsed time is nonnegative. -/
theorem runTask_redis_invariant (url : String) (t : ℚ) (b : TaskBehavior)
    (hb : b.elapsed_nonneg) :
    ((runTask (check_redis url t) b).error ≠ none ↔
      (runTask (check_redis url t) b).status = "unhealthy") ∧
    0 ≤ (runTask (check_redis url t) b).duration_ms := by
  cases b with
  | runs outcome elapsed_ms =>
    cases outcome <;>
      simp [runTask, check_redis, TaskBehavior.elapsed_nonneg] at hb ⊢ <;>
        exact hb
  | crashes msg elapsed_ms => simp [runTask]

/-- Claim C4: every entry of the mapping produced by
perform_health_checks has its error field set exactly when its status is
"unhealthy", and its duration_ms is populated and nonnegative, for
success, timeout and exception outcomes alike (given that measured
elapsed times are nonnegative). -/
theorem output_check_invariant (settings : Settings) (env : Env)
    (hdb : env.db.elapsed_nonneg) (hredis : env.redis.elapsed_nonneg) :
    ∀ p ∈ perform_health_checks settings env,
      (p.2.error ≠ none ↔ p.2.status = "unhealthy") ∧ 0 ≤ p.2.duration_ms := by
  intro p hp
  unfold perform_health_checks at hp
  rcases List.mem_append.mp hp with h | h
  · by_cases h1 : truthy settings.database_url
    · rw [if_pos h1] at h
      have hpe := List.mem_singleton.mp h
      subst hpe
      exact runTask_database_invariant _ _ _ hdb
    · rw [if_neg h1] at h
      cases h
  · by_cases h2 : truthy settings.redis_url
    · rw [if_pos h2] at h
      have hpe := List.mem_singleton.mp h
      subst hpe
      exact runTask_redis_invariant _ _ _ hredis
    · rw [if_neg h2] at h
      cases h

/-- Witness for C4 at a concrete configuration: both dependencies
configured, the database probe succeeds in 5 ms and the redis task
crashes. -/
theorem output_check_invariant_witness :
    ((ServiceCheck.mk "healthy" 5 none).error ≠ none ↔
      (ServiceCheck.mk "healthy" 5 none).status = "unhealthy") ∧
    0 ≤ (ServiceCheck.mk "healthy" 5 none).duration_ms :=
  output_check_invariant
    (Settings.mk (some "postgresql://u") (some "redis://u") 5)
    (Env.mk (.runs .ok 5) (.crashes "boom" 3))
    (by show (0 : ℚ) ≤ 5; norm_num) trivial
    ("database", ServiceCheck.mk "healthy" 5 none) (by decide)

/-- Claim C5: a probe never propagates an error — every non-success
outcome (timeout, connection failure, verification failure, close
failure) still returns a ServiceCheck, with status "unhealthy" and a
descriptive error string, and on timeout the error message states the
configured timeout value in seconds. -/
theorem probe_failure_handling (url : String) (t elapsed_ms : ℚ)
    (out : ProbeOutcome) :
    (out ≠ .ok →
      (check_database url t elapsed_ms out).result.status = "unhealthy" ∧
      (check_database url t elapsed_ms out).result.error ≠ none ∧
      (check_redis url t elapsed_ms out).result.status = "unhealthy" ∧
      (check_redis url t elapsed_ms out).result.error ≠ none) ∧
    (check_database url t elapsed_ms .connectTimeout).result.error =
      some ("Database connection timeout after " ++ toString t ++ "s") ∧
    (check_redis url t elapsed_ms .connectTimeout).result.error =
      some ("Redis connection timeout after " ++ toString t ++ "s") := by
  refine ⟨?_, rfl, rfl⟩
  intro hout
  cases out with
  | ok => exact absurd rfl hout
  | connectTimeout => simp [check_database, check_redis]
  | connectFail msg => simp [check_database, check_redis]
  | verifyFail msg => simp [check_database, check_redis]
  | closeFail msg => simp [check_database, check_redis]

/-- Witness for C5 at a concrete refused connection. -/
theorem probe_failure_handling_witness :
    (check_database "postgresql://u" 5 2
        (.connectFail "Connection refused")).result.status = "unhealthy" ∧
    (check_database "postgresql://u" 5 2
        (.connectFail "Connection refused")).result.error ≠ none ∧
    (check_redis "postgresql://u" 5 2
        (.connectFail "Connection refused")).result.status = "unhealthy" ∧
    (check_redis "postgresql://u" 5 2
        (.connectFail "Connection refused")).result.error ≠ none :=
  (probe_failure_handling "postgresql://u" 5 2
    (.connectFail "Connection refused")).1 (by decide)

/-- Claim C6: when the database task itself crashes, the aggregator still
produces a "database" entry, unhealthy with an "Unexpected error: "
message, and the redis entry is exactly what the redis task alone
determines — the crash removes or blocks nothing. -/
theorem aggregator_crash_containment (settings : Settings) (env : Env)
    (msg : String) (elapsed_ms : ℚ)
    (hdb : truthy settings.database_url = true)
    (hcrash : env.db = .crashes msg elapsed_ms) :
    lookupCheck "database" (perform_health_checks settings env) =
      some (ServiceCheck.mk "unhealthy" 0
        (some ("Unexpected error: " ++ msg))) ∧
    lookupCheck "redis" (perform_health_checks settings env) =
      (if truthy settings.redis_url then
        some (runTask (check_redis (settings.redis_url.getD "")
                settings.health_check_timeout) env.redis)
       else none) := by
  unfold perform_health_checks
  rw [if_pos hdb, hcrash]
  by_cases h2 : truthy settings.redis_url <;> simp [h2, lookupCheck, runTask]

/-- Witness for C6 at a concrete crashed database task next to a healthy
redis task. -/
theorem aggregator_crash_containment_witness :
    lookupCheck "database"
      (perform_health_checks
        (Settings.mk (some "postgresql://w") (some "redis://w") 5)
        (Env.mk (.crashes "boom" 7) (.runs .ok 2))) =
      some (ServiceCheck.mk "unhealthy" 0
        (some ("Unexpected error: " ++ "boom"))) ∧
    lookupCheck "redis"
      (perform_health_checks
        (Settings.mk (some "postgresql://w") (some "redis://w") 5)
        (Env.mk (.crashes "boom" 7) (.runs .ok 2))) =
      (if truthy (some "redis://w") then
        some (runTask (check_redis "redis://w" 5) (.runs .ok 2))
       else none) :=
  aggregator_crash_containment
    (Settings.mk (some "postgresql://w") (some "redis://w") 5)
    (Env.mk (.crashes "boom" 7) (.runs .ok 2)) "boom" 7 (by decide) rfl

/-- Claim C7 as stated is false on the code: when the verification query
fails after a successful connect, the generic except-clause returns
without closing, so the connection is opened but never closed on that
path. -/
theorem probe_close_counterexample :
    Action.openConn ∈
      (check_database "postgresql://u" 5 3
        (.verifyFail "SELECT 1 failed")).actions ∧
    Action.closeConn ∉
      (check_database "postgresql://u" 5 3
        (.verifyFail "SELECT 1 failed")).actions := by
  decide

/-- Claim C7, amended: a probe closes its connection only on the fully
successful path; on a path where the connection was opened but the
verification operation or the close itself fails, the probe returns with
the connection still open (a leak is possible). -/
theorem probe_close_only_on_success (url : String) (t elapsed_ms : ℚ)
    (out : ProbeOutcome) :
    (Action.closeConn ∈ (check_database url t elapsed_ms out).actions ↔
      out = .ok) ∧
    (Action.closeConn ∈ (check_redis url t elapsed_ms out).actions ↔
      out = .ok) ∧
    (Action.openConn ∈ (check_database url t elapsed_ms out).actions ↔
      out = .ok ∨ (∃ m, out = .verifyFail m) ∨ (∃ m, out = .closeFail m)) ∧
    (Action.openConn ∈ (check_redis url t elapsed_ms out).actions ↔
      out = .ok ∨ (∃ m, out = .verifyFail m) ∨ (∃ m, out = .closeFail m)) := by
  cases out <;> simp [check_database, check_redis]

/-- Claim C9: when a task crashes, the substitute ServiceCheck the
aggregator synthesizes has duration_ms exactly 0, whatever wall-clock
time the crashed task actually consumed. -/
theorem crash_duration_zero (settings : Settings) (env : Env)
    (msg : String) (elapsed_ms : ℚ) :
    (truthy settings.database_url = true →
      env.db = .crashes msg elapsed_ms →
      Option.map ServiceCheck.duration_ms
        (lookupCheck "database" (perform_health_checks settings env)) =
        some 0) ∧
    (truthy settings.redis_url = true →
      env.redis = .crashes msg elapsed_ms →
      Option.map ServiceCheck.duration_ms
        (lookupCheck "redis" (perform_health_checks settings env)) =
        some 0) := by
  constructor
  · intro h1 hc
    unfold perform_health_checks
    rw [if_pos h1, hc]
    by_cases h2 : truthy settings.redis_url <;>
      simp [h2, lookupCheck, runTask]
  · intro h2 hc
    unfold perform_health_checks
    rw [if_pos h2, hc]
    by_cases h1 : truthy settings.database_url <;>
      simp [h1, lookupCheck, runTask]

/-- Witness for C9: a database task that crashed after consuming 37 ms is
reported with duration 0. -/
theorem crash_duration_zero_witness :
    Option.map ServiceCheck.duration_ms
      (lookupCheck "database"
        (perform_health_checks (Settings.mk (some "postgresql://z") none 5)
          (Env.mk (.crashes "boom" 37) (.runs .ok 1)))) = some 0 :=
  (crash_duration_zero (Settings.mk (some "postgresql://z") none 5)
    (Env.mk (.crashes "boom" 37) (.runs .ok 1)) "boom" 37).1 (by decide) rfl

/-- Claim C10: both probes are invoked with the one
settings.health_check_timeout value — observably, when both probes hit
their timeout, both reported error messages state that same single
configured value, whatever each probe's own elapsed time was. -/
theorem single_timeout_for_all_probes (settings : Settings) (env : Env)
    (e1 e2 : ℚ)
    (hdb : truthy settings.database_url = true)
    (hredis : truthy settings.redis_url = true)
    (h1 : env.db = .runs .connectTimeout e1)
    (h2 : env.redis = .runs .connectTimeout e2) :
    lookupCheck "database" (perform_health_checks settings env) =
      some (ServiceCheck.mk "unhealthy" e1
        (some ("Database connection timeout after " ++
               toString settings.health_check_timeout ++ "s"))) ∧
    lookupCheck "redis" (perform_health_checks settings env) =
      some (ServiceCheck.mk "unhealthy" e2
        (some ("Redis connection timeout after " ++
               toString settings.health_check_timeout ++ "s"))) := by
  unfold perform_health_checks
  rw [if_pos hdb, if_pos hredis, h1, h2]
  constructor <;> simp [lookupCheck, runTask, check_database, check_redis]

/-- Witness for C10: both dependencies configured with timeout 5, both
probes time out; both messages mention the single value 5. -/
theorem single_timeout_for_all_probes_witness :
    lookupCheck "database"
      (perform_health_checks
        (Settings.mk (some "postgresql://v") (some "redis://v") 5)
        (Env.mk (.runs .connectTimeout 100) (.runs .connectTimeout 200))) =
      some (ServiceCheck.mk "unhealthy" 100
        (some ("Database connection timeout after " ++
               toString (5 : ℚ) ++ "s"))) ∧
    lookupCheck "redis"
      (perform_health_checks
        (Settings.mk (some "postgresql://v") (some "redis://v") 5)
        (Env.mk (.runs .connectTimeout 100) (.runs .connectTimeout 200))) =
      some (ServiceCheck.mk "unhealthy" 200
        (some ("Redis connection timeout after " ++
               toString (5 : ℚ) ++ "s"))) :=
  single_timeout_for_all_probes
    (Settings.mk (some "postgresql://v") (some "redis://v") 5)
    (Env.mk (.runs .connectTimeout 100) (.runs .connectTimeout 200))
    100 200 (by decide) (by decide) rfl rfl

end HealthCheck
